import Mathlib

/-!
Verification development for the ReachBy3Cs agent service.

The Python source under `src/agent-service` is shallowly embedded here:
pure functions become Lean functions, Python `float` arithmetic is
idealised as exact rational arithmetic (`ℚ`), Python's `round` (round
half to even, per its documentation) becomes `pyRound`/`roundTo`, and
fallible code returns `Except`/`Option`.  External effects (LLM calls,
HTTP) are passed in as explicit outcome values.
-/

namespace ReachBy

/-- Python `round(x)` on a rational: round half to even (banker's
rounding), as documented for Python's builtin `round`. -/
def pyRound (q : ℚ) : ℤ :=
  let f : ℤ := ⌊q⌋
  let r : ℚ := q - (f : ℚ)
  if r < 1/2 then f
  else if 1/2 < r then f + 1
  else if f % 2 = 0 then f else f + 1

/-- Python `round(x, n)` on a rational: round to `n` decimal places,
half to even. -/
def roundTo (n : ℕ) (q : ℚ) : ℚ :=
  (pyRound (q * 10 ^ n) : ℚ) / 10 ^ n

/-! ## CTS calculator (`src/skills/cts_decision/calculator.py`) -/

/-- `SIGNAL_WEIGHT = 0.4` -/
def SIGNAL_WEIGHT : ℚ := 4/10

/-- `RISK_WEIGHT = 0.3` -/
def RISK_WEIGHT : ℚ := 3/10

/-- `CTA_WEIGHT = 0.3` -/
def CTA_WEIGHT : ℚ := 3/10

/-- `CTS_AUTO_POST_THRESHOLD = 0.7` -/
def CTS_AUTO_POST_THRESHOLD : ℚ := 7/10

/-- `MAX_CTA_LEVEL_FOR_AUTO_POST = 1` -/
def MAX_CTA_LEVEL_FOR_AUTO_POST : ℤ := 1

/-- Risk levels (`src/skills/risk_scoring/schemas.py`, `RiskLevel`). -/
inductive RiskLevel where
  | low
  | medium
  | high
  | blocked
deriving DecidableEq, Repr

/-- Component breakdown returned by `calculate_cts`. -/
structure CTSBreakdown where
  signal_component : ℚ
  risk_component : ℚ
  cta_component : ℚ
deriving DecidableEq, Repr

/-- `calculate_cts` (`calculator.py` lines 19-67).  Python raises
`ValueError` on out-of-range inputs; here that is an `Except.error`
carrying the start of the message. -/
def calculate_cts (signal_confidence : ℚ) (risk_score : ℚ) (cta_level : ℤ) :
    Except String (ℚ × CTSBreakdown) :=
  if ¬(0 ≤ signal_confidence ∧ signal_confidence ≤ 1) then
    .error "signal_confidence must be between 0.0 and 1.0"
  else if ¬(0 ≤ risk_score ∧ risk_score ≤ 1) then
    .error "risk_score must be between 0.0 and 1.0"
  else if ¬(0 ≤ cta_level ∧ cta_level ≤ 3) then
    .error "cta_level must be between 0 and 3"
  else
    let signal_component := signal_confidence * SIGNAL_WEIGHT
    let risk_component := (1 - risk_score) * RISK_WEIGHT
    let cta_component := (1 - (cta_level : ℚ) / 3) * CTA_WEIGHT
    let cts_score := signal_component + risk_component + cta_component
    .ok (roundTo 4 cts_score,
      { signal_component := roundTo 4 signal_component
        risk_component := roundTo 4 risk_component
        cta_component := roundTo 4 cta_component })

/-- The three conditions `determine_auto_post_eligibility` can record in
`reasons_against` (`calculator.py` lines 92-108); the human-readable
message text is elided. -/
inductive AutoPostBlocker where
  | ctsBelowThreshold
  | riskNotLow
  | ctaTooHigh
deriving DecidableEq, Repr

/-- `determine_auto_post_eligibility` (`calculator.py` lines 70-121):
returns `(can_auto_post, reasons_against)`, where `can_auto_post` is
true exactly when `reasons_against` is empty.  The formatted reason
string is elided; the list of accumulated blockers is kept. -/
def determine_auto_post_eligibility (cts_score : ℚ) (risk_level : RiskLevel)
    (cta_level : ℤ) : Bool × List AutoPostBlocker :=
  let r1 : List AutoPostBlocker :=
    if cts_score < CTS_AUTO_POST_THRESHOLD then [.ctsBelowThreshold] else []
  let r2 : List AutoPostBlocker :=
    if risk_level ≠ .low then r1 ++ [.riskNotLow] else r1
  let r3 : List AutoPostBlocker :=
    if MAX_CTA_LEVEL_FOR_AUTO_POST < cta_level then r2 ++ [.ctaTooHigh] else r2
  (r3.isEmpty, r3)

/-- The `cts` block the pipeline stores
(`engagement_pipeline.py`, `_run_cts_decision`, lines 527-536 and the
error branch lines 538-549); `decision_factors` is elided. -/
structure CtsBlock where
  cts_score : ℚ
  can_auto_post : Bool
  requires_review : Bool
  recommended_action : String
deriving DecidableEq, Repr

/-- `_run_cts_decision` (`engagement_pipeline.py` lines 460-549):
runs `CTSDecisionSkill.run` (`skills/cts_decision/skill.py` lines
42-93), which calls `calculate_cts` then
`determine_auto_post_eligibility` on the 4-decimal score; the pipeline
stores `round(output.cts_score, 2)`.  Returns the stored `cts` block
and the `error` field of the state patch. -/
def run_cts_decision (signal_confidence : ℚ) (risk_level : RiskLevel)
    (risk_score : ℚ) (cta_level : ℤ) : CtsBlock × Option String :=
  match calculate_cts signal_confidence risk_score cta_level with
  | .ok (cts_score, _breakdown) =>
    let elig := determine_auto_post_eligibility cts_score risk_level cta_level
    let can_auto_post := elig.1
    let requires_review := !can_auto_post
    let recommended_action :=
      if can_auto_post then "Safe for auto-posting"
      else if risk_level = .high then "Requires senior review before posting"
      else "Queue for team review"
    ({ cts_score := roundTo 2 cts_score
       can_auto_post := can_auto_post
       requires_review := requires_review
       recommended_action := recommended_action }, none)
  | .error e =>
    ({ cts_score := 0
       can_auto_post := false
       requires_review := true
       recommended_action := "Manual review required due to processing error" },
     some ("CTS Decision error: " ++ e))

/-! ## Crisis pattern detector (`src/skills/risk_scoring/crisis_detector.py`)

The Python module matches ~36 compiled regular expressions against a
normalised copy of the input text.  The pattern language actually used
is small: literals, `\s*`, `.*`, `(a|b)` alternation, `(...)?` option,
a character class `[- ]`, and the word boundary `\b`.  `Re` below is
exactly that language, and `matchRe` decides whether a match exists
(which is what `pattern.search(text)` is used for in `detect`). -/

/-- Python regex `\w`: letters, digits and underscore (ASCII suffices
here: normalisation lower-cases the text and the patterns are ASCII). -/
def isWordChar (c : Char) : Bool := c.isAlpha || c.isDigit || c = '_'

/-- Python regex `\s` / `str.split()` whitespace (ASCII portion). -/
def isSpaceChar (c : Char) : Bool :=
  c = ' ' || c = '\t' || c = '\n' || c = '\r' || c = '\x0b' || c = '\x0c'

/-- The regex fragment language used by the crisis patterns. -/
inductive Re where
  | lit (cs : List Char)
  | cls (cs : List Char)
  | wsStar
  | gap
  | bnd
  | seq (a b : Re)
  | alt (a b : Re)
  | opt (r : Re)
deriving Repr

/-- Is the previous character a word character (start of text counts as
a non-word position)? -/
def wordP : Option Char → Bool
  | none => false
  | some c => isWordChar c

/-- Is the next character a word character (end of text counts as a
non-word position)? -/
def headWordP : List Char → Bool
  | [] => false
  | c :: _ => isWordChar c

/-- Existence-of-a-match semantics for `Re`, continuation style.  `prev`
is the character just before the current position (for `\b`), `k` the
continuation.  `fuel` only forces termination: every recursive call
strictly decreases `sizeOf re + inp.length`, so any fuel above that
bound gives the fixed point (see `searchRe`). -/
def matchRe : ℕ → Re → Option Char → List Char → (Option Char → List Char → Bool) → Bool
  | 0, _, _, _, _ => false
  | fuel + 1, re, prev, inp, k =>
    match re with
    | .lit [] => k prev inp
    | .lit (c :: cs) =>
      match inp with
      | [] => false
      | d :: rest => if d = c then matchRe fuel (.lit cs) (some c) rest k else false
    | .cls cs =>
      match inp with
      | [] => false
      | d :: rest => if cs.contains d then k (some d) rest else false
    | .wsStar =>
      k prev inp ||
        match inp with
        | [] => false
        | d :: rest => isSpaceChar d && matchRe fuel .wsStar (some d) rest k
    | .gap =>
      k prev inp ||
        match inp with
        | [] => false
        | d :: rest => matchRe fuel .gap (some d) rest k
    | .bnd => (wordP prev != headWordP inp) && k prev inp
    | .seq a b => matchRe fuel a prev inp fun p i => matchRe fuel b p i k
    | .alt a b => matchRe fuel a prev inp k || matchRe fuel b prev inp k
    | .opt r => k prev inp || matchRe fuel r prev inp k

/-- Size of a regex fragment; together with the remaining input length
it bounds the recursion depth of `matchRe`. -/
def reSize : Re → ℕ
  | .lit cs => cs.length + 1
  | .cls _ => 1
  | .wsStar => 1
  | .gap => 1
  | .bnd => 1
  | .seq a b => reSize a + reSize b + 1
  | .alt a b => reSize a + reSize b + 1
  | .opt r => reSize r + 1

/-- Try a match at the current position, else advance one character. -/
def searchReFrom (r : Re) (prev : Option Char) (l : List Char) : Bool :=
  matchRe (reSize r + l.length + 1) r prev l (fun _ _ => true) ||
    match l with
    | [] => false
    | c :: rest => searchReFrom r (some c) rest

/-- `pattern.search(text)` truthiness: does the pattern match starting
at any position of `s`? -/
def searchRe (r : Re) (s : List Char) : Bool := searchReFrom r none s

/-- Literal regex piece. -/
def rlit (s : String) : Re := .lit s.toList

/-- Concatenation of regex pieces. -/
def rcat (l : List Re) : Re := l.foldr .seq (.lit [])

/-- Alternation `(a|b|...)`. -/
def ralts : List Re → Re
  | [] => .lit []
  | [r] => r
  | r :: rest => .alt r (ralts rest)

/-- `\b(...)\b` — the shape of every crisis pattern group. -/
def wb (r : Re) : Re := rcat [.bnd, r, .bnd]

/-- An apostrophe (U+0027), written via its code point. -/
def apos : Char := Char.ofNat 39

/-- `SELF_HARM_PATTERNS` (`crisis_detector.py` lines 61-76):
`(pattern, description, severity)` triples, in source order. -/
def SELF_HARM_PATTERNS : List (Re × String × ℚ) :=
  [ (wb (rcat [rlit "kill", .wsStar, .opt (rlit "my"), rlit "self"]),
      "explicit self-harm intent", 1),
    (wb (rcat [rlit "end", .wsStar, .opt (rcat [rlit "it", .wsStar]), rlit "all"]),
      "suicidal ideation phrase", 95/100),
    (wb (ralts [rlit "suicide", rlit "suicidal"]), "suicide keyword", 9/10),
    (wb (rcat [rlit "want", .wsStar, rlit "to", .wsStar, rlit "die"]),
      "death wish expression", 95/100),
    (wb (rcat [rlit "better", .wsStar, rlit "off", .wsStar, rlit "dead"]),
      "suicidal ideation", 95/100),
    (wb (rcat [rlit "take", .wsStar, rlit "my", .wsStar,
        .opt (rcat [rlit "own", .wsStar]), rlit "life"]),
      "explicit self-harm intent", 1),
    (wb (rcat [rlit "slit", .wsStar, .opt (rcat [rlit "my", .wsStar]),
        ralts [rlit "wrist", rlit "throat"], .opt (rlit "s")]),
      "self-harm method", 1),
    (rcat [wb (ralts [rlit "overdose", rlit "od"]), .gap,
        wb (ralts [rlit "myself", rlit "me"])],
      "self-harm method", 9/10),
    (wb (rcat [rlit "hang", .wsStar, .opt (rlit "my"), rlit "self"]),
      "self-harm method", 1),
    (rcat [wb (rcat [rlit "jump", .wsStar, ralts [rlit "off", rlit "from"]]), .gap,
        wb (ralts [rlit "bridge", rlit "building", rlit "roof"])],
      "self-harm method", 9/10),
    (wb (rcat [rlit "no", .wsStar, rlit "reason", .wsStar, rlit "to", .wsStar,
        rlit "live"]),
      "suicidal ideation", 9/10),
    (wb (rcat [rlit "cut", .wsStar, .opt (rlit "my"), rlit "self"]),
      "self-harm behavior", 85/100),
    (wb (rcat [rlit "self", .opt (.cls ['-', ' ']), rlit "harm"]),
      "self-harm keyword", 85/100),
    (wb (rcat [rlit "don", .opt (.lit [apos]), rlit "t", .wsStar, rlit "want",
        .wsStar, rlit "to", .wsStar, rlit "be", .wsStar,
        ralts [rlit "here", rlit "alive"]]),
      "suicidal ideation", 9/10) ]

/-- `VIOLENCE_PATTERNS` (`crisis_detector.py` lines 79-91). -/
def VIOLENCE_PATTERNS : List (Re × String × ℚ) :=
  [ (wb (rcat [rlit "kill", .wsStar,
        ralts [rlit "him", rlit "her", rlit "them", rlit "you", rlit "someone",
          rlit "people"]]),
      "violent threat", 95/100),
    (wb (rcat [rlit "hurt", .wsStar,
        ralts [rlit "someone", rlit "people", rlit "them", rlit "him", rlit "her"]]),
      "violent intent", 85/100),
    (rcat [wb (rlit "revenge"), .gap,
        wb (ralts [rlit "kill", rlit "hurt", rlit "attack", rlit "shoot",
          rlit "stab"])],
      "revenge violence", 95/100),
    (wb (rcat [rlit "shoot", .wsStar,
        ralts [rlit "up", rlit "them", rlit "people", rlit "everyone"]]),
      "mass violence threat", 1),
    (rcat [wb (ralts [rlit "bomb", rlit "bombing"]), .gap,
        wb (ralts [rlit "place", rlit "school", rlit "building", rlit "people"])],
      "terrorism threat", 1),
    (wb (ralts [rlit "murder", rlit "murderous"]), "murder reference", 8/10),
    (wb (rcat [rlit "attack", .wsStar,
        ralts [rlit "people", rlit "them", rlit "someone"]]),
      "violent intent", 85/100),
    (wb (rcat [rlit "stab", .wsStar,
        ralts [rlit "someone", rlit "them", rlit "him", rlit "her"]]),
      "violent threat", 95/100),
    (wb (rcat [rlit "beat", .wsStar,
        ralts [rlit "up", rlit "them", rlit "him", rlit "her"], .wsStar,
        .opt (ralts [rlit "badly", rcat [rlit "to", .wsStar, rlit "death"]])]),
      "violent intent", 85/100),
    (rcat [wb (rcat [rlit "make", .wsStar, ralts [rlit "them", rlit "him", rlit "her"],
        .wsStar, rlit "pay"]), .gap,
        wb (ralts [rlit "hurt", rlit "suffer", rlit "die"])],
      "revenge violence", 9/10),
    (wb (rcat [rlit "bring", .wsStar, rlit "a", .wsStar,
        ralts [rlit "gun", rlit "weapon", rlit "knife"]]),
      "weapon threat", 95/100) ]

/-- `MENTAL_HEALTH_CRISIS_PATTERNS` (`crisis_detector.py` lines 94-106). -/
def MENTAL_HEALTH_CRISIS_PATTERNS : List (Re × String × ℚ) :=
  [ (wb (rcat [rlit "can", .opt (.lit [apos]), rlit "t", .wsStar, rlit "go",
        .wsStar, rlit "on"]),
      "crisis expression", 8/10),
    (rcat [wb (rcat [rlit "no", .wsStar, rlit "point"]), .gap,
        wb (ralts [rlit "living", rlit "life", rlit "anymore"])],
      "hopelessness", 9/10),
    (rcat [wb (rcat [rlit "give", .wsStar, rlit "up"]), .gap,
        wb (ralts [rlit "life", rlit "everything", rlit "living"])],
      "giving up on life", 85/100),
    (wb (rcat [rlit "everyone", .wsStar,
        ralts [rcat [rlit "would", .wsStar, rlit "be"], rlit "is"], .wsStar,
        rlit "better", .wsStar, rlit "off", .wsStar, rlit "without", .wsStar,
        rlit "me"]),
      "suicidal ideation", 95/100),
    (rcat [wb (rlit "goodbye"), .gap,
        wb (ralts [rlit "forever", rlit "final", rlit "last"])],
      "final goodbye", 85/100),
    (wb (rcat [rlit "this", .wsStar, rlit "is", .wsStar,
        .opt (rcat [rlit "my", .wsStar]),
        ralts [rlit "goodbye", rcat [rlit "the", .wsStar, rlit "end"]]]),
      "farewell message", 9/10),
    (wb (rcat [rlit "can", .opt (.lit [apos]), rlit "t", .wsStar, rlit "take",
        .wsStar, ralts [rlit "it", rlit "this"], .wsStar,
        ralts [rlit "anymore", rcat [rlit "any", .wsStar, rlit "more"]]]),
      "crisis expression", 75/100),
    (wb (rcat [rlit "nothing", .wsStar, rlit "matters", .wsStar, rlit "anymore"]),
      "hopelessness", 8/10),
    (wb (rcat [rlit "no", .wsStar, rlit "way", .wsStar, rlit "out"]),
      "hopelessness", 85/100),
    (wb (rcat [rlit "lost", .wsStar, rlit "all", .wsStar, rlit "hope"]),
      "hopelessness", 85/100),
    (rcat [wb (rcat [rlit "voices", .wsStar, ralts [rlit "tell", rlit "telling"],
        .wsStar, rlit "me"]), .gap,
        wb (ralts [rlit "hurt", rlit "kill", rlit "die"])],
      "psychiatric crisis", 95/100) ]

/-- A compiled crisis pattern (`crisis_detector.py`, `CrisisPattern`). -/
structure CrisisPattern where
  pattern : Re
  category : String
  severity : ℚ
  description : String

/-- `_compile_patterns` (`crisis_detector.py` lines 113-146): self-harm,
then violence, then mental-health patterns, tagged with category. -/
def compiledPatterns : List CrisisPattern :=
  SELF_HARM_PATTERNS.map (fun p => ⟨p.1, "self_harm", p.2.2, p.2.1⟩) ++
    VIOLENCE_PATTERNS.map (fun p => ⟨p.1, "violence", p.2.2, p.2.1⟩) ++
    MENTAL_HEALTH_CRISIS_PATTERNS.map
      (fun p => ⟨p.1, "mental_health_crisis", p.2.2, p.2.1⟩)

/-- Leetspeak substitution map (`_normalize_text` lines 215-227).  The
Python code applies eight sequential `str.replace` calls; as no
replacement character is itself a key, that equals this per-character
map. -/
def leetMap (c : Char) : Char :=
  if c = '0' then 'o'
  else if c = '1' then 'i'
  else if c = '3' then 'e'
  else if c = '4' then 'a'
  else if c = '5' then 's'
  else if c = '7' then 't'
  else if c = '@' then 'a'
  else if c = '$' then 's'
  else c

/-- `str.split()` (no separator): split on runs of whitespace,
discarding empty words. -/
def splitWs : List Char → List Char → List (List Char)
  | [], cur => if cur.isEmpty then [] else [cur.reverse]
  | c :: rest, cur =>
    if isSpaceChar c then
      if cur.isEmpty then splitWs rest [] else cur.reverse :: splitWs rest []
    else splitWs rest (c :: cur)

/-- One step of the single-letter collapsing loop
(`_normalize_text` lines 232-241): a single alphabetic character is
appended onto the previous word when that word currently has length 1,
otherwise it starts a new word. -/
def collapseStep (acc : List (List Char)) (w : List Char) : List (List Char) :=
  match w with
  | [c] =>
    if c.isAlpha then
      match acc.getLast? with
      | some last =>
        if last.length = 1 then acc.dropLast ++ [last ++ [c]] else acc ++ [w]
      | none => acc ++ [w]
    else acc ++ [w]
  | _ => acc ++ [w]

/-- `_normalize_text` (`crisis_detector.py` lines 197-243): lower-case,
leetspeak-substitute, then collapse spaced-out single letters and
re-join with single spaces. -/
def normalize_text (text : String) : String :=
  let normalized := (text.toList.map Char.toLower).map leetMap
  let words := splitWs normalized []
  let cleaned := words.foldl collapseStep []
  String.mk (List.intercalate [' '] cleaned)

/-- `CrisisDetectionResult` (`risk_scoring/schemas.py` lines 135-161). -/
structure CrisisDetectionResult where
  is_crisis : Bool
  matched_patterns : List String := []
  crisis_category : Option String := none
  confidence : ℚ := 0

/-- Update the per-category highest-severity table
(`detect` lines 176-181), preserving first-insertion order as a Python
dict does. -/
def updateCat (acc : List (String × ℚ)) (cat : String) (sev : ℚ) :
    List (String × ℚ) :=
  match acc with
  | [] => [(cat, sev)]
  | (c, s) :: rest =>
    if c = cat then (c, if s < sev then sev else s) :: rest
    else (c, s) :: updateCat rest cat sev

/-- `max(categories_found, key=...)` (`detect` line 187): the first
entry with the maximal severity, in insertion order. -/
def primaryCat : List (String × ℚ) → Option (String × ℚ)
  | [] => none
  | e :: rest => some (rest.foldl (fun best x => if best.2 < x.2 then x else best) e)

/-- `CrisisDetector.detect` (`crisis_detector.py` lines 148-195). -/
def detect (text : String) : CrisisDetectionResult :=
  if text.toList.all isSpaceChar then { is_crisis := false }
  else
    let normalized := (normalize_text text).toList
    let matched := compiledPatterns.filter fun cp => searchRe cp.pattern normalized
    if matched.isEmpty then { is_crisis := false }
    else
      let categories_found :=
        matched.foldl (fun acc cp => updateCat acc cp.category cp.severity) []
      { is_crisis := true
        matched_patterns := matched.map fun cp => cp.category ++ ": " ++ cp.description
        crisis_category := (primaryCat categories_found).map Prod.fst
        confidence := ((primaryCat categories_found).map Prod.snd).getD 0 }

/-! ## Risk scoring skill (`src/skills/risk_scoring/skill.py`)

The skill runs the crisis detector first; only when no crisis pattern
matches does it consult the LLM, and an LLM failure falls back to a
heuristic.  The LLM call is embedded as an explicit outcome value:
`.ok a` for a parsed `LLMRiskAnalysis`, `.error e` for any of the
caught exceptions (HTTP, network, parse). -/

/-- `RiskScoringInput` (`risk_scoring/schemas.py` lines 29-57). -/
structure RiskScoringInput where
  text : String
  emotional_intensity : ℚ
  problem_category : String
  keywords : List String := []

/-- `RiskScoringOutput` (`risk_scoring/schemas.py` lines 73-110);
`raw_analysis` is elided. -/
structure RiskScoringOutput where
  risk_level : RiskLevel
  risk_score : ℚ
  risk_factors : List String
  context_flags : List String
  recommended_action : String

/-- `LLMRiskAnalysis` (`risk_scoring/schemas.py` lines 164-200). -/
structure LLMRiskAnalysis where
  risk_score : ℚ
  risk_factors : List String := []
  context_flags : List String := []
  sentiment : String := "neutral"
  engagement_recommendation : String := ""

/-- `RECOMMENDED_ACTIONS` (`skill.py` lines 58-63). -/
def recommendedAction : RiskLevel → String
  | .blocked =>
    "DO NOT ENGAGE. Crisis content detected. Route to crisis intervention protocol."
  | .high => "Requires manual review before any engagement. Escalate to senior moderator."
  | .medium => "Queue for review. Consider tone adjustment before engagement."
  | .low => "Safe for automated engagement with standard brand voice."

/-- `_determine_risk_level` (`skill.py` lines 118-131). -/
def determine_risk_level (risk_score : ℚ) : RiskLevel :=
  if 7/10 ≤ risk_score then .high
  else if 3/10 ≤ risk_score then .medium
  else .low

/-- `_create_crisis_output` (`skill.py` lines 212-243). -/
def create_crisis_output (_input : RiskScoringInput)
    (crisis : CrisisDetectionResult) : RiskScoringOutput :=
  { risk_level := .blocked
    risk_score := 1
    risk_factors := crisis.matched_patterns
    context_flags :=
      ["crisis_category:" ++
          (match crisis.crisis_category with | some c => c | none => "None"),
        "requires_immediate_attention", "do_not_engage"]
    recommended_action := recommendedAction .blocked }

/-- `_create_llm_output` (`skill.py` lines 245-276).  The
`RECOMMENDED_ACTIONS.get(level, llm.engagement_recommendation)` lookup
always hits: every level is a key of the dict. -/
def create_llm_output (_input : RiskScoringInput) (a : LLMRiskAnalysis) :
    RiskScoringOutput :=
  let rl := determine_risk_level a.risk_score
  { risk_level := rl
    risk_score := a.risk_score
    risk_factors := a.risk_factors
    context_flags := a.context_flags
    recommended_action := recommendedAction rl }

/-- The `sensitive_categories` weights (`skill.py` lines 297-303),
as the dict `.get(category, 0.0)`. -/
def sensitiveCategoryWeight (cat : String) : ℚ :=
  if cat = "health_concern" then 15/100
  else if cat = "financial_distress" then 15/100
  else if cat = "legal_matter" then 2/10
  else if cat = "relationship_crisis" then 1/10
  else if cat = "employment_issue" then 1/10
  else 0

/-- `_create_fallback_output` (`skill.py` lines 278-327).  The
formatted diagnostic strings in `risk_factors` are elided. -/
def create_fallback_output (input : RiskScoringInput) (_error : String) :
    RiskScoringOutput :=
  let base_score := input.emotional_intensity
  let risk_score :=
    min (base_score + sensitiveCategoryWeight input.problem_category) (99/100)
  let rl := determine_risk_level risk_score
  { risk_level := rl
    risk_score := roundTo 2 risk_score
    risk_factors := []
    context_flags := if input.problem_category ≠ "" then [input.problem_category] else []
    recommended_action := "Review recommended. " ++ recommendedAction rl }

/-- `RiskScoringSkill.analyze` (`skill.py` lines 329-390): crisis
detection first; otherwise the LLM outcome decides between the LLM
output and the heuristic fallback. -/
def analyze (input : RiskScoringInput) (llm : Except String LLMRiskAnalysis) :
    RiskScoringOutput :=
  let crisis := detect input.text
  if crisis.is_crisis then create_crisis_output input crisis
  else
    match llm with
    | .ok a => create_llm_output input a
    | .error e => create_fallback_output input e

/-! ## Response generation skill (`src/skills/response_generation/skill.py`)

The workflow is prepare-prompt → call-LLM → parse → adapt-tone →
select, with both LLM and parse failures routed to `_handle_error`.
The chain up to and including tone adaptation is embedded as an
outcome value: `.ok (vf, sc, cx)` carries the three tone-adapted
variants (`adapted_responses`), `.error e` any caught failure. -/

/-- `ResponseType` (`response_generation/schemas.py` line 46). -/
inductive ResponseType where
  | value_first
  | soft_cta
  | contextual
deriving DecidableEq, Repr

/-- `RiskLevel` of the response-generation input
(`response_generation/schemas.py` line 45): a three-valued literal. -/
inductive RespRiskLevel where
  | low
  | medium
  | high
deriving DecidableEq, Repr

/-- `ResponseGenerationOutput` (`response_generation/schemas.py`),
restricted to the response fields; `raw_analysis` is elided. -/
structure ResponsesBlock where
  value_first_response : String
  soft_cta_response : String
  contextual_response : String
  selected_response : String
  selected_type : ResponseType
deriving DecidableEq, Repr

/-- An apostrophe as a one-character string (apostrophes cannot appear
literally in this file's string literals). -/
def aposS : String := String.mk [apos]

/-- `_generate_fallback_responses` (`skill.py` lines 467-544): the
template for a response type and platform, with reddit as the
`.get(platform, ...)` default.  Apostrophes in the source text are
spliced in via `aposS`. -/
def fallbackTemplate (rt : ResponseType) (platform : String) : String :=
  match rt with
  | .value_first =>
    if platform = "twitter" then
      "This is something a lot of people struggle with. Taking it step by step usually helps. What" ++
        aposS ++ "s your main blocker?"
    else if platform = "quora" then
      "This is a question many people face. Based on common experiences, the most effective approach is to break down the problem into smaller, manageable parts and address each one systematically."
    else
      "That" ++ aposS ++
        "s a common challenge many of us face. What" ++ aposS ++
        "s worked for others in similar situations is taking it step by step and finding what specifically triggers the issue for you. Have you noticed any patterns?"
  | .soft_cta =>
    if platform = "twitter" then
      "Many people face this! Breaking it down helps, and there are tools that can make it easier."
    else if platform = "quora" then
      "This is a common challenge. The most effective approach involves systematic problem-solving, and there are various tools and applications specifically designed to help with this."
    else
      "Totally get this. It" ++ aposS ++
        "s something a lot of people struggle with. Taking it step by step helps, and there are also some tools out there that can make tracking progress easier."
  | .contextual =>
    if platform = "twitter" then
      "Totally been there! Finding the right approach + tools made all the difference for me."
    else if platform = "quora" then
      "This is a challenge I" ++ aposS ++
        "ve encountered myself. In my experience, combining a structured approach with the right tools has been particularly effective for managing this type of situation."
    else
      "Been there! It took me a while to figure out what worked. Breaking things down into smaller pieces helped a lot, and finding the right tools made tracking progress so much easier."

/-- `_select_response` (`skill.py` lines 374-430): high → value_first,
medium → soft_cta, anything else → contextual;
`selected_response` is the corresponding adapted variant. -/
def select_response (risk_level : RespRiskLevel)
    (adapted : String × String × String) : ResponsesBlock :=
  let (vf, sc, cx) := adapted
  let st : ResponseType :=
    match risk_level with
    | .high => .value_first
    | .medium => .soft_cta
    | .low => .contextual
  { value_first_response := vf
    soft_cta_response := sc
    contextual_response := cx
    selected_response :=
      match st with
      | .value_first => vf
      | .soft_cta => sc
      | .contextual => cx
    selected_type := st }

/-- `_handle_error` (`skill.py` lines 432-465): fallback templates,
always selecting `value_first`. -/
def handle_error (platform : String) : ResponsesBlock :=
  { value_first_response := fallbackTemplate .value_first platform
    soft_cta_response := fallbackTemplate .soft_cta platform
    contextual_response := fallbackTemplate .contextual platform
    selected_response := fallbackTemplate .value_first platform
    selected_type := .value_first }

/-- `ResponseGenerationSkill.run` (`skill.py` lines 546-569 plus the
workflow of lines 125-166): a successful LLM+parse+adapt chain reaches
`_select_response`; any caught failure reaches `_handle_error`. -/
def response_generation_run (platform : String) (risk_level : RespRiskLevel)
    (llm : Except String (String × String × String)) : ResponsesBlock :=
  match llm with
  | .ok adapted => select_response risk_level adapted
  | .error _ => handle_error platform

/-! ## Engagement pipeline (`src/agents/engagement_pipeline.py`)

The LangGraph workflow is a fixed DAG driven sequentially:
signal_detection → risk_scoring → (blocked? handle_blocked :
response_generation → cta_classifier → cts_decision), with error edges
to END.  Each LLM-backed stage takes its outcome as an explicit
argument. -/

/-- The `signal` dict of the pipeline state (`_run_signal_detection`
lines 228-237); `raw_analysis` is elided. -/
structure Signal where
  problem_category : String
  emotional_intensity : ℚ
  keywords : List String
  confidence : ℚ

/-- The `cta` dict of the pipeline state (`_run_cta_classifier` lines
436-445); `cta_analysis` is elided. -/
structure CTABlock where
  cta_level : ℤ
  cta_type : String

/-- The response dict the pipeline returns (`EngagementPipeline.run`
lines 584-593). -/
structure PipelineResult where
  signal : Option Signal
  risk : Option RiskScoringOutput
  responses : Option ResponsesBlock
  cta : Option CTABlock
  cts : Option CtsBlock
  error : Option String
  blocked : Bool

/-- `blocked → high` coercion applied before response generation
(`_run_response_generation` lines 364-368). -/
def coerceRiskLevel : RiskLevel → RespRiskLevel
  | .blocked => .high
  | .high => .high
  | .medium => .medium
  | .low => .low

/-- `EngagementPipeline.run` (`engagement_pipeline.py` lines 551-600)
with the workflow edges of `_build_workflow` (lines 141-201).

Oracle arguments stand for the external calls:
`signalO` the signal-detection stage (`.error` = exception caught at
lines 239-244), `riskLLM` the risk-scoring LLM call, `respLLM` the
response-generation LLM+parse+adapt chain, `ctaO` the CTA classifier.
Constructing `RiskScoringInput` re-validates its pydantic bounds
(`text` nonempty, `emotional_intensity ∈ [0,1]`); a validation error is
caught by `_run_risk_scoring` (lines 294-299) and ends the run.
`signal.get("confidence", 0.8)` always finds the key, since
`_run_signal_detection` stores it. -/
def pipeline_run (text platform : String)
    (signalO : Except String Signal)
    (riskLLM : Except String LLMRiskAnalysis)
    (respLLM : Except String (String × String × String))
    (ctaO : Except String CTABlock) : PipelineResult :=
  match signalO with
  | .error e =>
    { signal := none, risk := none, responses := none, cta := none, cts := none
      error := some ("Signal Detection error: " ++ e), blocked := false }
  | .ok sig =>
    if text = "" ∨ ¬(0 ≤ sig.emotional_intensity ∧ sig.emotional_intensity ≤ 1) then
      { signal := some sig, risk := none, responses := none, cta := none, cts := none
        error := some "Risk Scoring error: input validation failed", blocked := false }
    else
      let risk := analyze
        { text := text
          emotional_intensity := sig.emotional_intensity
          problem_category := sig.problem_category
          keywords := sig.keywords } riskLLM
      if risk.risk_level = .blocked then
        -- `_handle_blocked` (lines 315-337)
        { signal := some sig
          risk := some risk
          responses := none
          cta := none
          cts := some
            { cts_score := 0
              can_auto_post := false
              requires_review := false
              recommended_action := "Do not engage - route to crisis protocol" }
          error := none
          blocked := true }
      else
        let responses :=
          response_generation_run platform (coerceRiskLevel risk.risk_level) respLLM
        match ctaO with
        | .error e =>
          { signal := some sig, risk := some risk, responses := some responses
            cta := none, cts := none
            error := some ("CTA Classifier error: " ++ e), blocked := false }
        | .ok cta =>
          let cts := run_cts_decision sig.confidence risk.risk_level
            risk.risk_score cta.cta_level
          { signal := some sig, risk := some risk, responses := some responses
            cta := some cta, cts := some cts.1
            error := cts.2, blocked := false }

/-! ## Org rate-limit manager (`src/automation/limits.py`)

Timestamps are idealised as integer seconds; `datetime.utcnow()`
becomes the explicit `now` argument, and the per-org post history
(`_post_history[org_id]`) is the explicit `history` list of
`(timestamp, platform, target)` entries. -/

/-- `PlatformLimits` (`limits.py` lines 16-33). -/
structure PlatformLimits where
  platform : String
  posts_per_hour : ℕ := 10
  posts_per_day : ℕ := 50
  min_gap_seconds : ℤ := 60
  subreddit_gap_seconds : ℤ := 300
  enabled : Bool := true

/-- `OrgLimits` (`limits.py` lines 36-59). -/
structure OrgLimits where
  organization_id : String
  max_daily_auto_posts : ℕ := 50
  max_hourly_auto_posts : ℕ := 10
  min_cts_score : ℚ := 7/10
  max_cta_level : ℤ := 1
  allowed_risk_levels : List RiskLevel := [.low]
  platform_limits : List (String × PlatformLimits) := []
  auto_post_enabled : Bool := true
  blacklisted_subreddits : List String := []

/-- Python `str.lower()` (ASCII portion, which covers the platform and
subreddit names used here). -/
def strLower (s : String) : String := String.mk (s.toList.map Char.toLower)

/-- `max(ts for ...)` over a possibly empty history selection. -/
def lastTime (l : List (ℤ × String × String)) : Option ℤ :=
  l.foldl (fun acc e => some (match acc with | none => e.1 | some m => max m e.1)) none

/-- `RateLimitManager.check_limits` (`limits.py` lines 162-250),
transcribed with its early returns as nested conditionals. -/
def check_limits (limits : OrgLimits) (history : List (ℤ × String × String))
    (now : ℤ) (platform target : String) : Bool × String :=
  if ¬limits.auto_post_enabled then
    (false, "Auto-posting is disabled for this organization")
  else
    let platform_limits :=
      (limits.platform_limits.find? fun e => e.1 = platform).map Prod.snd
    if (match platform_limits with | some pl => !pl.enabled | none => false) then
      (false, "Auto-posting is disabled for " ++ platform)
    else
      let hour_ago := now - 3600
      let day_ago := now - 86400
      let hourly_count := (history.filter fun e => hour_ago < e.1).length
      let daily_count := (history.filter fun e => day_ago < e.1).length
      let platform_hourly :=
        (history.filter fun e => hour_ago < e.1 ∧ e.2.1 = platform).length
      let platform_daily :=
        (history.filter fun e => day_ago < e.1 ∧ e.2.1 = platform).length
      if limits.max_hourly_auto_posts ≤ hourly_count then
        (false, "Hourly auto-post limit reached (" ++ toString hourly_count ++ "/" ++
          toString limits.max_hourly_auto_posts ++ ")")
      else if limits.max_daily_auto_posts ≤ daily_count then
        (false, "Daily auto-post limit reached (" ++ toString daily_count ++ "/" ++
          toString limits.max_daily_auto_posts ++ ")")
      else
        let afterPlatform :=
          if target ≠ "" ∧
              (limits.blacklisted_subreddits.map strLower).contains (strLower target) then
            (false, "Subreddit " ++ target ++ " is blacklisted")
          else (true, "OK")
        match platform_limits with
        | none => afterPlatform
        | some pl =>
          if pl.posts_per_hour ≤ platform_hourly then
            (false, platform ++ " hourly limit reached (" ++ toString platform_hourly ++
              "/" ++ toString pl.posts_per_hour ++ ")")
          else if pl.posts_per_day ≤ platform_daily then
            (false, platform ++ " daily limit reached (" ++ toString platform_daily ++
              "/" ++ toString pl.posts_per_day ++ ")")
          else
            let platform_posts := history.filter fun e => e.2.1 = platform
            match lastTime platform_posts with
            | some last_post_time =>
              if now - last_post_time < pl.min_gap_seconds then
                (false, "Minimum gap not met (" ++ toString (now - last_post_time) ++
                  "s < " ++ toString pl.min_gap_seconds ++ "s)")
              else
                if target ≠ "" ∧ platform = "reddit" ∧ 0 < pl.subreddit_gap_seconds then
                  let subreddit_posts := history.filter fun e =>
                    e.2.1 = platform ∧ strLower e.2.2 = strLower target
                  match lastTime subreddit_posts with
                  | some last_subreddit_time =>
                    if now - last_subreddit_time < pl.subreddit_gap_seconds then
                      (false, "Subreddit gap not met for " ++ target ++ " (" ++
                        toString (now - last_subreddit_time) ++ "s < " ++
                        toString pl.subreddit_gap_seconds ++ "s)")
                    else afterPlatform
                  | none => afterPlatform
                else afterPlatform
            | none =>
              if target ≠ "" ∧ platform = "reddit" ∧ 0 < pl.subreddit_gap_seconds then
                let subreddit_posts := history.filter fun e =>
                  e.2.1 = platform ∧ strLower e.2.2 = strLower target
                match lastTime subreddit_posts with
                | some last_subreddit_time =>
                  if now - last_subreddit_time < pl.subreddit_gap_seconds then
                    (false, "Subreddit gap not met for " ++ target ++ " (" ++
                      toString (now - last_subreddit_time) ++ "s < " ++
                      toString pl.subreddit_gap_seconds ++ "s)")
                  else afterPlatform
                | none => afterPlatform
              else afterPlatform

/-- The nine checks of `check_limits` in their evaluation order, each
as an independent (fails?, reason) pair.  This is the specification
side for the ordering claim: the claim's reading of the spec sentence
listing checks (1)-(9). -/
def limitChecks (limits : OrgLimits) (history : List (ℤ × String × String))
    (now : ℤ) (platform target : String) : List (Bool × String) :=
  let platform_limits :=
    (limits.platform_limits.find? fun e => e.1 = platform).map Prod.snd
  let hour_ago := now - 3600
  let day_ago := now - 86400
  let hourly_count := (history.filter fun e => hour_ago < e.1).length
  let daily_count := (history.filter fun e => day_ago < e.1).length
  let platform_hourly :=
    (history.filter fun e => hour_ago < e.1 ∧ e.2.1 = platform).length
  let platform_daily :=
    (history.filter fun e => day_ago < e.1 ∧ e.2.1 = platform).length
  let platform_posts := history.filter fun e => e.2.1 = platform
  let subreddit_posts := history.filter fun e =>
    e.2.1 = platform ∧ strLower e.2.2 = strLower target
  [ (!limits.auto_post_enabled,
      "Auto-posting is disabled for this organization"),
    ((match platform_limits with | some pl => !pl.enabled | none => false),
      "Auto-posting is disabled for " ++ platform),
    (decide (limits.max_hourly_auto_posts ≤ hourly_count),
      "Hourly auto-post limit reached (" ++ toString hourly_count ++ "/" ++
        toString limits.max_hourly_auto_posts ++ ")"),
    (decide (limits.max_daily_auto_posts ≤ daily_count),
      "Daily auto-post limit reached (" ++ toString daily_count ++ "/" ++
        toString limits.max_daily_auto_posts ++ ")"),
    ((match platform_limits with
        | some pl => decide (pl.posts_per_hour ≤ platform_hourly) | none => false),
      platform ++ " hourly limit reached (" ++ toString platform_hourly ++ "/" ++
        toString ((platform_limits.map PlatformLimits.posts_per_hour).getD 0) ++ ")"),
    ((match platform_limits with
        | some pl => decide (pl.posts_per_day ≤ platform_daily) | none => false),
      platform ++ " daily limit reached (" ++ toString platform_daily ++ "/" ++
        toString ((platform_limits.map PlatformLimits.posts_per_day).getD 0) ++ ")"),
    ((match platform_limits, lastTime platform_posts with
        | some pl, some last => decide (now - last < pl.min_gap_seconds)
        | _, _ => false),
      "Minimum gap not met (" ++
        toString (now - (lastTime platform_posts).getD 0) ++ "s < " ++
        toString ((platform_limits.map PlatformLimits.min_gap_seconds).getD 0) ++ "s)"),
    ((match platform_limits, lastTime subreddit_posts with
        | some pl, some last =>
          decide (target ≠ "" ∧ platform = "reddit" ∧ 0 < pl.subreddit_gap_seconds ∧
            now - last < pl.subreddit_gap_seconds)
        | _, _ => false),
      "Subreddit gap not met for " ++ target ++ " (" ++
        toString (now - (lastTime subreddit_posts).getD 0) ++ "s < " ++
        toString ((platform_limits.map PlatformLimits.subreddit_gap_seconds).getD 0) ++
        "s)"),
    (decide (target ≠ "") &&
        (limits.blacklisted_subreddits.map strLower).contains (strLower target),
      "Subreddit " ++ target ++ " is blacklisted") ]

/-- First failing check wins; all checks passing yields `(true, "OK")`. -/
def firstFailing (l : List (Bool × String)) : Bool × String :=
  match l.find? (fun c => c.1) with
  | some c => (false, c.2)
  | none => (true, "OK")

/-! ## Posting queue (`src/posting/queue.py`)

The queue's shared state (`_items`, `_processing`, the priority heap)
is modelled as an explicit `QueueState`; `datetime.utcnow()` and
`uuid4()` become explicit arguments.  `PostResult.metadata` is an open
dict of which only the `wait_seconds` key is ever read
(`_handle_failure` line 288), so only that key is modelled. -/

/-- `QueueStatus` (`queue.py` lines 21-30). -/
inductive QueueStatus where
  | queued
  | processing
  | completed
  | failed
  | retry_pending
  | cancelled
  | rate_limited
deriving DecidableEq, Repr

/-- `PostResult` (`posting/base.py` lines 44-73); `posted_at` and
`method` are elided, `metadata` is reduced to its `wait_seconds` key. -/
structure PostResult where
  success : Bool
  external_id : Option String := none
  external_url : Option String := none
  error : Option String := none
  error_code : Option String := none
  retryable : Bool := true
  platform : String := ""
  wait_seconds : Option ℚ := none
deriving DecidableEq, Repr

/-- `QueueItem` (`queue.py` lines 33-71); `metadata` is elided. -/
structure QueueItem where
  id : String
  response_id : String
  organization_id : String
  platform : String
  target_url : String
  response_text : String
  priority : ℤ := 0
  status : QueueStatus := .queued
  retry_count : ℕ := 0
  max_retries : ℕ := 3
  created_at : ℚ := 0
  scheduled_for : Option ℚ := none
  started_at : Option ℚ := none
  completed_at : Option ℚ := none
  last_error : Option String := none
  result : Option PostResult := none
deriving DecidableEq, Repr

/-- The `PostingQueue` state (`queue.py` lines 91-118): configuration
plus `_items` (an insertion-ordered id → item map), `_processing`, and
the heap `_queue` of `(-priority, timestamp, item)` entries (items are
tracked by id here; the Python heap aliases the item objects). -/
structure QueueState where
  max_retries : ℕ := 3
  base_retry_delay : ℚ := 60
  max_retry_delay : ℚ := 900
  max_queue_size : ℕ := 10000
  items : List (String × QueueItem) := []
  processing : List String := []
  queue : List (ℤ × ℚ × String) := []
deriving DecidableEq, Repr

/-- Arguments of `PostingQueue.enqueue` (`queue.py` lines 127-137);
`metadata` is elided. -/
structure EnqueueArgs where
  response_id : String
  organization_id : String
  platform : String
  target_url : String
  response_text : String
  priority : ℤ := 0
  scheduled_for : Option ℚ := none
deriving DecidableEq, Repr

/-- Replace the value stored under `id` in the item map (the Python
code mutates the shared `QueueItem` object in place). -/
def setItem (l : List (String × QueueItem)) (id : String) (it : QueueItem) :
    List (String × QueueItem) :=
  l.map fun e => if e.1 = id then (id, it) else e

/-- `PostingQueue.enqueue` (`queue.py` lines 127-190): refuses with
`ValueError("Queue is full")` when `len(self._items)` has reached
`max_queue_size`; otherwise creates the item and pushes
`(-priority, (scheduled_for or created_at).timestamp(), item)`. -/
def enqueue (s : QueueState) (a : EnqueueArgs) (now : ℚ) (newId : String) :
    Except String (QueueItem × QueueState) :=
  if s.max_queue_size ≤ s.items.length then .error "Queue is full"
  else
    let item : QueueItem :=
      { id := newId
        response_id := a.response_id
        organization_id := a.organization_id
        platform := a.platform
        target_url := a.target_url
        response_text := a.response_text
        priority := a.priority
        status := .queued
        retry_count := 0
        max_retries := s.max_retries
        created_at := now
        scheduled_for := a.scheduled_for }
    .ok (item,
      { s with
          queue := s.queue ++ [(-a.priority, a.scheduled_for.getD now, newId)]
          items := s.items ++ [(newId, item)] })

/-- Python truthiness of `result.metadata.get("wait_seconds")`:
missing or zero is falsy. -/
def truthyWait : Option ℚ → Bool
  | none => false
  | some w => decide (w ≠ 0)

/-- The item-level effect of `_handle_failure` (`queue.py` lines
265-327): increments `retry_count`, and either schedules a retry
(returning the computed delay) or marks the item failed. -/
def handle_failure_item (base_retry_delay max_retry_delay : ℚ)
    (item : QueueItem) (result : PostResult) (now : ℚ) : QueueItem × Option ℚ :=
  let item1 := { item with
    last_error := result.error
    retry_count := item.retry_count + 1 }
  if result.retryable = true ∧ item1.retry_count < item1.max_retries then
    let delay0 := min (base_retry_delay * 2 ^ (item1.retry_count - 1)) max_retry_delay
    let delay :=
      if result.error_code = some "RATELIMIT" ∧ truthyWait result.wait_seconds then
        max delay0 (result.wait_seconds.getD 0)
      else delay0
    ({ item1 with status := .retry_pending, scheduled_for := some (now + delay) },
      some delay)
  else
    ({ item1 with status := .failed }, none)

/-- The state-level `_handle_failure` (`queue.py` lines 265-327): on
retry, re-queues the item and removes it from the processing set; on
permanent failure just removes it from the processing set.  (The
failure callback is external and not modelled.) -/
def handle_failure (s : QueueState) (item : QueueItem) (result : PostResult)
    (now : ℚ) : QueueState :=
  let (item2, d) := handle_failure_item s.base_retry_delay s.max_retry_delay
    item result now
  match d with
  | some _ =>
    { s with
        items := setItem s.items item2.id item2
        queue := s.queue ++ [(-item2.priority, item2.scheduled_for.getD now, item2.id)]
        processing := s.processing.filter (· ≠ item2.id) }
  | none =>
    { s with
        items := setItem s.items item2.id item2
        processing := s.processing.filter (· ≠ item2.id) }

/-- `PostingQueue.complete` (`queue.py` lines 232-263): unknown ids are
ignored; otherwise `completed_at`/`result` are recorded and the item is
either completed or routed through the failure handler.  (The success
callback is external and not modelled.) -/
def complete (s : QueueState) (item_id : String) (result : PostResult)
    (now : ℚ) : QueueState :=
  match s.items.find? (fun e => e.1 = item_id) with
  | none => s
  | some found =>
    let item := { found.2 with completed_at := some now, result := some result }
    if result.success then
      { s with
          items := setItem s.items item_id { item with status := .completed }
          processing := s.processing.filter (· ≠ item_id) }
    else
      handle_failure { s with items := setItem s.items item_id item } item result now

/-- `PostingQueue.cancel` (`queue.py` lines 329-349): fails only when
the id is unknown or the item is currently `processing`; otherwise the
item is deleted from the map (its in-place `CANCELLED` marking is
unobservable after the delete). -/
def cancel (s : QueueState) (item_id : String) : Bool × QueueState :=
  match s.items.find? (fun e => e.1 = item_id) with
  | none => (false, s)
  | some found =>
    if found.2.status = .processing then (false, s)
    else (true, { s with items := s.items.filter fun e => ¬(e.1 = item_id) })

/-- The retry loop a queue item undergoes when every posting attempt
fails with the same `result` (the worker loop of `_worker_loop` feeding
`complete`/`_handle_failure`), projected to the item: returns the
number of posting attempts and the list of scheduled retry delays, in
order.  `fuel` bounds the recursion; `max_retries + 1` is always
enough. -/
def failLoop (base maxd : ℚ) : ℕ → QueueItem → PostResult → ℚ → ℕ × List ℚ
  | 0, _, _, _ => (0, [])
  | fuel + 1, item, result, now =>
    match handle_failure_item base maxd item result now with
    | (item2, some d) =>
      let rest := failLoop base maxd fuel item2 result now
      (rest.1 + 1, d :: rest.2)
    | (_, none) => (1, [])

/-- The delay `_handle_failure` computes for a failure with
`retry_count` already incremented to `k`: `min(base·2^(k-1), max)`,
raised to `wait_seconds` for a truthy rate-limit hint. -/
def retryDelay (res : PostResult) (base maxd : ℚ) (k : ℕ) : ℚ :=
  let delay0 := min (base * 2 ^ (k - 1)) maxd
  if res.error_code = some "RATELIMIT" ∧ truthyWait res.wait_seconds then
    max delay0 (res.wait_seconds.getD 0)
  else delay0

/-! ## Theorems -/

/-- `can_auto_post` holds exactly when all three criteria pass
(`determine_auto_post_eligibility`). -/
theorem auto_post_iff (s : ℚ) (l : RiskLevel) (c : ℤ) :
    (determine_auto_post_eligibility s l c).1 = true ↔
      (CTS_AUTO_POST_THRESHOLD ≤ s ∧ l = .low ∧ c ≤ MAX_CTA_LEVEL_FOR_AUTO_POST) := by
  unfold determine_auto_post_eligibility
  by_cases h1 : s < CTS_AUTO_POST_THRESHOLD <;>
    by_cases h2 : l = RiskLevel.low <;>
      by_cases h3 : MAX_CTA_LEVEL_FOR_AUTO_POST < c <;>
        simp [h1, h2, h3, not_lt] <;>
          first
            | exact ⟨le_of_not_lt h1, le_of_not_lt h3⟩
            | tauto

/-- For in-range inputs, `calculate_cts` returns the 4-decimal rounded
weighted sum and component breakdown. -/
theorem calculate_cts_eq (sc rs : ℚ) (cl : ℤ)
    (h1 : 0 ≤ sc) (h2 : sc ≤ 1) (h3 : 0 ≤ rs) (h4 : rs ≤ 1)
    (h5 : 0 ≤ cl) (h6 : cl ≤ 3) :
    calculate_cts sc rs cl =
      .ok (roundTo 4 (sc * SIGNAL_WEIGHT + (1 - rs) * RISK_WEIGHT +
          (1 - (cl : ℚ)/3) * CTA_WEIGHT),
        { signal_component := roundTo 4 (sc * SIGNAL_WEIGHT)
          risk_component := roundTo 4 ((1 - rs) * RISK_WEIGHT)
          cta_component := roundTo 4 ((1 - (cl : ℚ)/3) * CTA_WEIGHT) }) := by
  unfold calculate_cts
  rw [if_neg (not_not_intro ⟨h1, h2⟩), if_neg (not_not_intro ⟨h3, h4⟩),
    if_neg (not_not_intro ⟨h5, h6⟩)]

/-- C1 (amended): for in-range inputs the CTS decision computes the raw
weighted sum, rounds it to 4 decimals inside `calculate_cts`, stores
`round(·, 2)` of that as the final `cts_score`, and decides
`can_auto_post` on the 4-decimal score (not on the stored 2-decimal
one): `can_auto_post` ⟺ 4-decimal score ≥ 0.7 ∧ risk = low ∧
cta_level ≤ 1. -/
theorem cts_decision_formula (sc rs : ℚ) (cl : ℤ) (risk : RiskLevel)
    (h1 : 0 ≤ sc) (h2 : sc ≤ 1) (h3 : 0 ≤ rs) (h4 : rs ≤ 1)
    (h5 : 0 ≤ cl) (h6 : cl ≤ 3) :
    (run_cts_decision sc risk rs cl).2 = none ∧
    (run_cts_decision sc risk rs cl).1.cts_score =
      roundTo 2 (roundTo 4
        (sc * (4/10) + (1 - rs) * (3/10) + (1 - (cl : ℚ)/3) * (3/10))) ∧
    ((run_cts_decision sc risk rs cl).1.can_auto_post = true ↔
      (7/10 ≤ roundTo 4
          (sc * (4/10) + (1 - rs) * (3/10) + (1 - (cl : ℚ)/3) * (3/10)) ∧
        risk = .low ∧ cl ≤ 1)) := by
  unfold run_cts_decision
  rw [calculate_cts_eq sc rs cl h1 h2 h3 h4 h5 h6]
  refine ⟨rfl, by simp [SIGNAL_WEIGHT, RISK_WEIGHT, CTA_WEIGHT], ?_⟩
  simpa [SIGNAL_WEIGHT, RISK_WEIGHT, CTA_WEIGHT, CTS_AUTO_POST_THRESHOLD,
    MAX_CTA_LEVEL_FOR_AUTO_POST] using
    auto_post_iff (roundTo 4 (sc * SIGNAL_WEIGHT + (1 - rs) * RISK_WEIGHT +
      (1 - (cl : ℚ)/3) * CTA_WEIGHT)) risk cl

/-- Witness for `cts_decision_formula` at `sc = 0.9`, `rs = 0.1`,
`cl = 0`, `risk = low`. -/
theorem cts_decision_formula_witness :
    (run_cts_decision (9/10) .low (1/10) 0).1.can_auto_post = true := by
  have h := (cts_decision_formula (9/10) (1/10) 0 .low (by norm_num) (by norm_num)
    (by norm_num) (by norm_num) (by norm_num) (by norm_num)).2.2
  rw [h]
  norm_num [roundTo, pyRound]

/-- C1 counterexample: at `sc = 0.7`, `rs = 0.27`, `cl = 1`,
`risk = low`, the raw score is 0.699, the stored final `cts_score` is
0.70 ≥ 0.7, risk is low and `cl ≤ 1`, yet `can_auto_post` is false —
falsifying the claimed biconditional over the final 2-decimal score. -/
theorem cts_decision_claimed_iff_false :
    ¬ ((run_cts_decision (7/10) .low (27/100) 1).1.can_auto_post = true ↔
      (7/10 ≤ (run_cts_decision (7/10) .low (27/100) 1).1.cts_score ∧
        RiskLevel.low = RiskLevel.low ∧ (1 : ℤ) ≤ 1)) := by
  have h := cts_decision_formula (7/10) (27/100) 1 .low (by norm_num) (by norm_num)
    (by norm_num) (by norm_num) (by norm_num) (by norm_num)
  rcases h with ⟨-, hscore, hiff⟩
  rw [hscore, hiff]
  norm_num [roundTo, pyRound]

/-- C10: `calculate_cts` raises `ValueError` exactly on out-of-range
inputs: any of the three range checks failing yields an error, and
in-range inputs return normally. -/
theorem calculate_cts_validation (sc rs : ℚ) (cl : ℤ) :
    ((¬(0 ≤ sc ∧ sc ≤ 1) ∨ ¬(0 ≤ rs ∧ rs ≤ 1) ∨ ¬(0 ≤ cl ∧ cl ≤ 3)) →
      ∃ e, calculate_cts sc rs cl = .error e) ∧
    ((0 ≤ sc ∧ sc ≤ 1) ∧ (0 ≤ rs ∧ rs ≤ 1) ∧ (0 ≤ cl ∧ cl ≤ 3) →
      ∃ v, calculate_cts sc rs cl = .ok v) := by
  constructor
  · intro h
    by_cases hs : 0 ≤ sc ∧ sc ≤ 1
    · by_cases hr : 0 ≤ rs ∧ rs ≤ 1
      · have hc : ¬(0 ≤ cl ∧ cl ≤ 3) := by tauto
        exact ⟨"cta_level must be between 0 and 3",
          by simp [calculate_cts, hs, hr, hc]⟩
      · exact ⟨"risk_score must be between 0.0 and 1.0",
          by simp [calculate_cts, hs, hr]⟩
    · exact ⟨"signal_confidence must be between 0.0 and 1.0",
        by simp [calculate_cts, hs]⟩
  · rintro ⟨⟨hs1, hs2⟩, ⟨hr1, hr2⟩, ⟨hc1, hc2⟩⟩
    exact ⟨_, calculate_cts_eq sc rs cl hs1 hs2 hr1 hr2 hc1 hc2⟩

/-- Witness for `calculate_cts_validation`: an out-of-range
`signal_confidence` errors, and a fully in-range input succeeds. -/
theorem calculate_cts_validation_witness :
    (∃ e, calculate_cts 2 0 0 = .error e) ∧
    (∃ v, calculate_cts (1/2) (1/2) 1 = .ok v) :=
  ⟨(calculate_cts_validation 2 0 0).1 (by norm_num),
    (calculate_cts_validation (1/2) (1/2) 1).2 (by norm_num)⟩

/-- C4: the normalizer lower-cases and leetspeak-substitutes, but its
single-letter collapsing merges letters only in pairs: `"k i l l"`
normalizes to `"ki ll"`, not to the word `"kill"` promised by the
code's own comment (`crisis_detector.py` line 231: `"k i l l" ->
"kill"`). -/
theorem normalize_collapse_pairs :
    normalize_text "k i l l" = "ki ll" ∧ normalize_text "k i l l" ≠ "kill" ∧
    normalize_text "K I L L" = "ki ll" ∧ normalize_text "k 1 l l" = "ki ll" := by
  decide

/-- C5: every `blocked` output of the risk-scoring skill comes from the
crisis branch: its `risk_score` is 1.0 and a crisis pattern matched the
input text; neither the LLM path nor the heuristic fallback ever
produces `blocked`. -/
theorem risk_blocked_invariant (input : RiskScoringInput)
    (llm : Except String LLMRiskAnalysis) :
    ((analyze input llm).risk_level = .blocked →
      (analyze input llm).risk_score = 1 ∧ (detect input.text).is_crisis = true) ∧
    (∀ a : LLMRiskAnalysis, (create_llm_output input a).risk_level ≠ .blocked) ∧
    (∀ e : String, (create_fallback_output input e).risk_level ≠ .blocked) := by
  have hlvl : ∀ q : ℚ, determine_risk_level q ≠ .blocked := by
    intro q
    unfold determine_risk_level
    split_ifs <;> simp
  refine ⟨?_, fun a => hlvl _, fun e => hlvl _⟩
  intro hb
  unfold analyze at hb ⊢
  by_cases hc : (detect input.text).is_crisis
  · simp [hc, create_crisis_output]
  · exfalso
    rcases llm with e | a <;>
      simp [hc, create_llm_output, create_fallback_output] at hb <;>
        exact hlvl _ hb

/-- A concrete crisis input for the risk-scoring witness. -/
def crisisInput : RiskScoringInput where
  text := "I want to die"
  emotional_intensity := 1/2
  problem_category := "mental_health_stress"

/-- Witness for `risk_blocked_invariant`: the crisis text
`"I want to die"` yields a blocked output with score 1. -/
theorem risk_blocked_invariant_witness :
    (analyze crisisInput (.error "timeout")).risk_score = 1 ∧
    (detect crisisInput.text).is_crisis = true :=
  (risk_blocked_invariant crisisInput (.error "timeout")).1 (by decide)

/-- C2: when the input text contains a crisis pattern and the
signal-detection stage succeeds with an in-range emotional intensity,
the pipeline ends via `handle_blocked`: risk level `blocked`, no
responses, no CTA, a sentinel CTS with `can_auto_post = false`, and
`blocked = true`. -/
theorem pipeline_crisis_first (text platform : String) (sig : Signal)
    (riskLLM : Except String LLMRiskAnalysis)
    (respLLM : Except String (String × String × String))
    (ctaO : Except String CTABlock)
    (hcrisis : (detect text).is_crisis = true)
    (hi0 : 0 ≤ sig.emotional_intensity) (hi1 : sig.emotional_intensity ≤ 1) :
    ∃ rb cb,
      (pipeline_run text platform (.ok sig) riskLLM respLLM ctaO).risk = some rb ∧
      rb.risk_level = .blocked ∧
      (pipeline_run text platform (.ok sig) riskLLM respLLM ctaO).responses = none ∧
      (pipeline_run text platform (.ok sig) riskLLM respLLM ctaO).cta = none ∧
      (pipeline_run text platform (.ok sig) riskLLM respLLM ctaO).cts = some cb ∧
      cb.can_auto_post = false ∧
      (pipeline_run text platform (.ok sig) riskLLM respLLM ctaO).blocked = true := by
  have htext : ¬(text = "") := by
    intro h
    rw [h] at hcrisis
    simp [detect] at hcrisis
  simp [pipeline_run, htext, hi0, hi1, analyze, hcrisis, create_crisis_output]

/-- A concrete signal-detection output for the pipeline witness. -/
def crisisSig : Signal where
  problem_category := "mental_health_stress"
  emotional_intensity := 1/2
  keywords := []
  confidence := 8/10

/-- The pipeline run of the witness: crisis text, all later oracles
failing. -/
def crisisRun : PipelineResult :=
  pipeline_run "I want to die" "reddit" (.ok crisisSig)
    (.error "e") (.error "e") (.error "e")

/-- Witness for `pipeline_crisis_first` on the crisis text
`"I want to die"`. -/
theorem pipeline_crisis_first_witness :
    ∃ rb cb,
      crisisRun.risk = some rb ∧
      rb.risk_level = .blocked ∧
      crisisRun.responses = none ∧
      crisisRun.cta = none ∧
      crisisRun.cts = some cb ∧
      cb.can_auto_post = false ∧
      crisisRun.blocked = true :=
  pipeline_crisis_first "I want to die" "reddit" crisisSig
    (.error "e") (.error "e") (.error "e") (by decide)
    (by norm_num [crisisSig]) (by norm_num [crisisSig])

/-- The success-path selection rule of `_select_response`. -/
def selectTypeForRisk : RespRiskLevel → ResponseType
  | .high => .value_first
  | .medium => .soft_cta
  | .low => .contextual

/-- The text variant of an output corresponding to a response type. -/
def variantOf (o : ResponsesBlock) : ResponseType → String
  | .value_first => o.value_first_response
  | .soft_cta => o.soft_cta_response
  | .contextual => o.contextual_response

/-- C8 (amended): in every output of the response-generation skill,
`selected_response` is the text variant of `selected_type`; on the
success path `selected_type` follows the risk level (high→value_first,
medium→soft_cta, low→contextual), but on the error/fallback path it is
always `value_first` regardless of risk level. -/
theorem response_selection (platform : String) (rl : RespRiskLevel)
    (llm : Except String (String × String × String)) :
    variantOf (response_generation_run platform rl llm)
        (response_generation_run platform rl llm).selected_type =
      (response_generation_run platform rl llm).selected_response ∧
    (∀ t, llm = .ok t →
      (response_generation_run platform rl llm).selected_type = selectTypeForRisk rl) ∧
    (∀ e, llm = .error e →
      (response_generation_run platform rl llm).selected_type = .value_first) := by
  rcases llm with e | t <;> rcases rl <;>
    simp [response_generation_run, select_response, handle_error, selectTypeForRisk,
      variantOf]

/-- Witness for `response_selection` on the success path with low
risk. -/
theorem response_selection_witness :
    (response_generation_run "reddit" .low (.ok ("a", "b", "c"))).selected_type =
      selectTypeForRisk .low :=
  (response_selection "reddit" .low (.ok ("a", "b", "c"))).2.1 ("a", "b", "c") rfl

/-- C8 counterexample: on the error path with risk level `low`, the
skill selects `value_first`, not the `contextual` the claim requires
for low risk. -/
theorem response_selection_error_path :
    (response_generation_run "reddit" .low
        (.error "LLM API HTTP error: 500")).selected_type = .value_first ∧
    ResponseType.value_first ≠ ResponseType.contextual := by
  constructor
  · simp [response_generation_run, handle_error]
  · decide

/-- C6 (amended): `cancel` succeeds exactly when the item exists and is
not currently `processing` — terminal `completed`/`failed` items can
also be cancelled; on failure the state is unchanged. -/
theorem cancel_iff (s : QueueState) (item_id : String) :
    ((cancel s item_id).1 = true ↔
      ∃ e, s.items.find? (fun x => x.1 = item_id) = some e ∧
        e.2.status ≠ .processing) ∧
    ((cancel s item_id).1 = false → (cancel s item_id).2 = s) := by
  unfold cancel
  cases hf : s.items.find? (fun x => x.1 = item_id) with
  | none => simp [hf]
  | some found =>
    by_cases hp : found.2.status = .processing <;> simp [hf, hp]

/-- A queued item used by the cancel witness. -/
def queuedItem : QueueItem where
  id := "item-1"
  response_id := "resp-123"
  organization_id := "org"
  platform := "reddit"
  target_url := "url"
  response_text := "text"

/-- A one-item queue state holding `queuedItem`. -/
def queuedState : QueueState := { items := [("item-1", queuedItem)] }

/-- Witness for `cancel_iff`: cancelling a queued item succeeds. -/
theorem cancel_iff_witness : (cancel queuedState "item-1").1 = true :=
  (cancel_iff queuedState "item-1").1.mpr
    ⟨("item-1", queuedItem), by decide, by decide⟩

/-- The enqueue arguments used by the cancel counterexample. -/
def demoArgs : EnqueueArgs where
  response_id := "resp-123"
  organization_id := "org"
  platform := "reddit"
  target_url := "url"
  response_text := "text"

/-- Enqueue an item at t=0, then complete it successfully at t=1. -/
def completedState : QueueState :=
  match enqueue {} demoArgs 0 "item-1" with
  | .ok (_, s) => complete s "item-1" { success := true, platform := "reddit" } 1
  | .error _ => {}

/-- C6 counterexample: after an item completes successfully (status
`completed`, not `queued`/`retry_pending`), `cancel` still succeeds —
the claim says it must fail. -/
theorem cancel_completed_succeeds :
    ((completedState.items.find? (fun e => e.1 = "item-1")).map
        (fun e => e.2.status) = some .completed) ∧
    (cancel completedState "item-1").1 = true ∧
    QueueStatus.completed ≠ QueueStatus.queued ∧
    QueueStatus.completed ≠ QueueStatus.retry_pending := by
  refine ⟨by decide, by decide, by decide, by decide⟩

/-- `setItem` never changes the key set of the item map. -/
theorem setItem_keys (id : String) (it : QueueItem) :
    ∀ l : List (String × QueueItem),
      (setItem l id it).map Prod.fst = l.map Prod.fst := by
  intro l
  induction l with
  | nil => rfl
  | cons e rest ih =>
    by_cases h : e.1 = id <;> simp [setItem, h] <;>
      simpa [setItem, h] using ih

/-- `handle_failure` never changes the key set of the item map. -/
theorem handle_failure_keys (s : QueueState) (item : QueueItem)
    (result : PostResult) (now : ℚ) :
    (handle_failure s item result now).items.map Prod.fst =
      s.items.map Prod.fst := by
  unfold handle_failure
  rcases h : handle_failure_item s.base_retry_delay s.max_retry_delay
    item result now with ⟨item2, d⟩
  cases d <;> simp [setItem_keys]

/-- C9: completing (or failing) an item never removes it from the item
map, and `enqueue` raises `ValueError("Queue is full")` whenever the
number of tracked items — whatever their statuses — has reached
`max_queue_size`. -/
theorem complete_keeps_items_enqueue_full (s : QueueState) (item_id : String)
    (result : PostResult) (now : ℚ) :
    ((complete s item_id result now).items.map Prod.fst =
      s.items.map Prod.fst) ∧
    (∀ (a : EnqueueArgs) (now2 : ℚ) (nid : String),
      s.max_queue_size ≤ s.items.length →
        enqueue s a now2 nid = .error "Queue is full") := by
  constructor
  · unfold complete
    cases hf : s.items.find? (fun e => e.1 = item_id) with
    | none => rfl
    | some found =>
      by_cases hs : result.success
      · simp [hs, setItem_keys]
      · simp only [hs, Bool.false_eq_true, if_false]
        rw [handle_failure_keys]
        simp [setItem_keys]
  · intro a now2 nid h
    unfold enqueue
    rw [if_pos h]

/-- A queue state full of one already-completed item
(`max_queue_size = 1`). -/
def fullState : QueueState :=
  { max_queue_size := 1
    items := [("item-1", { queuedItem with status := .completed })] }

/-- Witness for `complete_keeps_items_enqueue_full`: the full state —
holding only a terminal item — still refuses a new enqueue. -/
theorem complete_keeps_items_enqueue_full_witness :
    enqueue fullState demoArgs 5 "item-2" = .error "Queue is full" :=
  (complete_keeps_items_enqueue_full fullState "item-1"
      { success := true, platform := "reddit" } 3).2 demoArgs 5 "item-2" (by decide)

/-- The retry loop of `failLoop`, started at `retry_count = c`: exactly
`R - c` further attempts happen, and the `j`-th scheduled retry delay
is `retryDelay` at incremented retry count `c + 1 + j`. -/
theorem failLoop_spec (base maxd now : ℚ) (res : PostResult)
    (hr : res.retryable = true) :
    ∀ (fuel c R : ℕ) (item : QueueItem), item.retry_count = c →
      item.max_retries = R → c < R → R - c ≤ fuel →
      failLoop base maxd fuel item res now =
        (R - c, (List.range (R - c - 1)).map fun j =>
          retryDelay res base maxd (c + 1 + j)) := by
  intro fuel
  induction fuel with
  | zero => intro c R item _ _ hcR hfuel; omega
  | succ f ih =>
    intro c R item hc hm hcR _
    unfold failLoop handle_failure_item
    by_cases hlast : c + 1 < R
    · rw [if_pos (by constructor <;> simp [hr, hc, hm, hlast])]
      have hrec := ih (c + 1) R
        { item with
            last_error := res.error
            retry_count := item.retry_count + 1
            status := .retry_pending
            scheduled_for := some (now +
              (if res.error_code = some "RATELIMIT" ∧ truthyWait res.wait_seconds then
                max (min (base * 2 ^ (item.retry_count + 1 - 1)) maxd)
                  (res.wait_seconds.getD 0)
              else min (base * 2 ^ (item.retry_count + 1 - 1)) maxd)) }
        (by simp [hc]) (by simp [hm]) hlast (by omega)
      simp only [hc] at hrec ⊢
      rw [hrec]
      have hlen : R - c - 1 = (R - (c + 1) - 1) + 1 := by omega
      rw [hlen, List.range_succ_eq_map]
      simp only [List.map_cons, List.map_map, Prod.mk.injEq, List.cons.injEq]
      refine ⟨by omega, by simp [retryDelay], ?_⟩
      apply List.map_congr_left
      intro j _
      simp only [Function.comp_apply]
      congr 1
      omega
    · rw [if_neg (by simp [hr, hc, hm]; omega)]
      have h1 : R - c = 1 := by omega
      simp [h1]

/-- C3 (amended): a queue item whose attempts all fail with
`retryable = true` and `max_retries = R` undergoes exactly `max R 1`
posting attempts (R attempts when R ≥ 1, a single attempt when R = 0)
before reaching `failed`; the `k`-th scheduled retry (k = 1..R−1,
preceding attempt k+1) waits `min(base_retry_delay·2^(k−1),
max_retry_delay)`, raised to the failure's `wait_seconds` when its
`error_code` is `"RATELIMIT"` with a truthy `wait_seconds`. -/
theorem retry_attempt_count (R : ℕ) (base maxd now : ℚ) (res : PostResult)
    (item : QueueItem) (hr : res.retryable = true)
    (h0 : item.retry_count = 0) (hm : item.max_retries = R) :
    failLoop base maxd (R + 1) item res now =
      (max R 1, (List.range (R - 1)).map fun k =>
        retryDelay res base maxd (k + 1)) := by
  rcases Nat.eq_zero_or_pos R with hR | hR
  · subst hR
    unfold failLoop handle_failure_item
    rw [if_neg (by simp [hr, h0, hm])]
    rfl
  · have h := failLoop_spec base maxd now res hr (R + 1) 0 R item h0 hm hR (by omega)
    rw [h]
    have hmax : max R 1 = R := by omega
    rw [hmax, Nat.sub_zero]
    refine congrArg _ (List.map_congr_left fun j _ => ?_)
    congr 1
    omega

/-- A fresh queue item with the default `max_retries = 3`. -/
def freshItem : QueueItem where
  id := "item-1"
  response_id := "resp-123"
  organization_id := "org"
  platform := "reddit"
  target_url := "url"
  response_text := "text"

/-- A retryable failure without a rate-limit hint. -/
def persistentFailure : PostResult where
  success := false
  error := some "Persistent error"
  retryable := true
  platform := "reddit"

/-- C3 counterexample: with `max_retries = 3` (and the default delays
60/900), the all-failing item makes exactly 3 attempts — not the
claimed `R + 1 = 4` — and the wait before the 2nd attempt is 60 s,
not the claimed `min(60·2^(2−1), 900) = 120` s. -/
theorem retry_three_attempts_not_four :
    (failLoop 60 900 4 freshItem persistentFailure 0).1 = 3 ∧
    (failLoop 60 900 4 freshItem persistentFailure 0).2 = [60, 120] ∧
    (3 : ℕ) ≠ 3 + 1 ∧ ¬((120 : ℚ) ≤ 60) := by
  have h := failLoop_spec 60 900 0 persistentFailure rfl 4 0 3 freshItem rfl rfl
    (by omega) (by omega)
  rw [h]
  refine ⟨rfl, ?_, by decide, by norm_num⟩
  norm_num [retryDelay, persistentFailure, truthyWait, List.range_succ]

/-- Unfolding `firstFailing` one check at a time. -/
theorem firstFailing_cons (b : Bool) (r : String) (rest : List (Bool × String)) :
    firstFailing ((b, r) :: rest) = if b then (false, r) else firstFailing rest := by
  cases b <;> simp [firstFailing, List.find?]

set_option maxHeartbeats 3200000 in
/-- C7: `check_limits` returns exactly the first failing check of the
nine, in the order (1) org auto-post disabled, (2) platform disabled,
(3) org hourly cap, (4) org daily cap, (5) platform hourly cap,
(6) platform daily cap, (7) platform min gap, (8) reddit subreddit gap,
(9) blacklisted target — with that check's reason string — and
`(true, "OK")` when all pass. -/
theorem check_limits_order (limits : OrgLimits)
    (history : List (ℤ × String × String)) (now : ℤ) (platform target : String) :
    check_limits limits history now platform target =
      firstFailing (limitChecks limits history now platform target) := by
  unfold check_limits limitChecks
  dsimp only
  set pl := (limits.platform_limits.find? fun e => e.1 = platform).map Prod.snd
    with hpl
  set hc := (history.filter fun e => now - 3600 < e.1).length with hhc
  set dc := (history.filter fun e => now - 86400 < e.1).length with hdc
  set ph := (history.filter fun e => now - 3600 < e.1 ∧ e.2.1 = platform).length
    with hph
  set pd := (history.filter fun e => now - 86400 < e.1 ∧ e.2.1 = platform).length
    with hpd
  set lp := lastTime (history.filter fun e => e.2.1 = platform) with hlp
  set ls := lastTime (history.filter fun e =>
    e.2.1 = platform ∧ strLower e.2.2 = strLower target) with hls
  set bl := (limits.blacklisted_subreddits.map strLower).contains (strLower target)
    with hbl
  clear_value pl hc dc ph pd lp ls bl
  clear hpl hhc hdc hph hpd hlp hls hbl
  rcases pl with _ | plV <;> rcases lp with _ | lpV <;> rcases ls with _ | lsV <;>
    simp only [Option.map_some', Option.map_none', firstFailing_cons, firstFailing] <;>
      split_ifs <;> simp_all <;>
        by_cases hr : platform = "reddit" <;>
          by_cases ht : target = "" <;>
            simp_all [not_lt] <;> omega

/-- Witness for `retry_attempt_count` at `R = 2` with the default
delays. -/
theorem retry_attempt_count_witness :
    failLoop 60 900 (2 + 1) { freshItem with max_retries := 2 }
        persistentFailure 0 =
      (max 2 1, (List.range (2 - 1)).map fun k =>
        retryDelay persistentFailure 60 900 (k + 1)) :=
  retry_attempt_count 2 60 900 0 persistentFailure
    { freshItem with max_retries := 2 } rfl rfl rfl

end ReachBy
